import Mathlib

/-!
Shallow embedding of the intercom-nextgen signaling core.

The definitions below transcribe, as pure Lean functions, the stateful
TypeScript hooks of the repository:

* `useAgoraCall` (call state machine, signal send/receive handlers),
* `useTokenRefresh` (credential renewal check),
* the command dashboard's presence tracking
  (`updateUserPresence` / `cleanupOfflineUsers`).

React `useState`/`useRef` cells become fields of an explicit state record;
each handler becomes a function from that record (plus the inputs the
original read from its environment: the current clock, the random suffix
used for call-id generation, and whether the transport-level send
succeeds) to the updated record together with the list of signals it
successfully sent.  JavaScript exceptions become explicit error results.
-/

namespace Intercom

/-- The five `CallState` values of the hook. -/
inductive CallState where
  | IDLE
  | CALLING
  | RINGING
  | CONNECTED
  | ENDED
deriving DecidableEq, Repr

/-- A parsed signal object.  The TypeScript interface declares `type` as a
union of four string literals, but at runtime the field is an arbitrary
string (the handlers switch on it with no default), so it is modelled as
`String`.  The keyword-clashing field `from` is rendered `from_`. -/
structure CallSignal where
  type : String
  from_ : String
  to_ : String
  channel : String
  timestamp : Nat
  callId : String
deriving DecidableEq, Repr

/-- The mutable cells of `useAgoraCall` that the signaling logic reads or
writes: the `useState` values and the `currentCallIdRef` ref.  The ringtone
is modelled as a boolean (playing / stopped). -/
structure HookState where
  callState : CallState
  currentCall : Option CallSignal
  error : Option String
  userId : String
  currentTargetUserId : String
  channel : String
  showVideoCall : Bool
  isConnected : Bool
  currentCallIdRef : Option String
  ringtonePlaying : Bool
deriving DecidableEq, Repr

/-- The hook's initial state: `useState("IDLE")`, null refs, default
channel `"dragnet-channel"`, not connected. -/
def initialState (userId : String) : HookState :=
  { callState := .IDLE
    currentCall := none
    error := none
    userId := userId
    currentTargetUserId := ""
    channel := "dragnet-channel"
    showVideoCall := false
    isConnected := false
    currentCallIdRef := none
    ringtonePlaying := false }

/-- `resetCallState`: clears the call-id ref and `currentCall`, returns to
`IDLE`, hides the video call, clears the dialed target and the error, and
stops the ringtone. -/
def resetCallState (s : HookState) : HookState :=
  { s with
    currentCallIdRef := none
    currentCall := none
    callState := .IDLE
    showVideoCall := false
    currentTargetUserId := ""
    error := none
    ringtonePlaying := false }

/-- The string built by `generateCallId`:
`` `call_${Date.now()}_${randomSuffix}` ``.  The clock value and the random
suffix are passed in explicitly. -/
def mkCallId (now : Nat) (rand : String) : String :=
  "call_" ++ toString now ++ "_" ++ rand

/-- `generateCallId`: builds a fresh id, stores it in `currentCallIdRef`,
and returns it. -/
def generateCallId (now : Nat) (rand : String) (s : HookState) :
    HookState × String :=
  ({ s with currentCallIdRef := some (mkCallId now rand) }, mkCallId now rand)

/-- The expression `currentCallIdRef.current || generateCallId()` in
`sendCallSignal`: reuse the stored id when it is present and truthy
(non-empty), otherwise generate (and store) a fresh one. -/
def refOrNewCallId (now : Nat) (rand : String) (s : HookState) :
    HookState × String :=
  match s.currentCallIdRef with
  | some cid => if cid = "" then generateCallId now rand s else (s, cid)
  | none => generateCallId now rand s

/-- Outcome of `sendCallSignal`: either the signal that was sent, or the
message of the exception it threw. -/
inductive SendResult where
  | ok (sent : CallSignal)
  | err (msg : String)
deriving DecidableEq, Repr

/-- `sendCallSignal(to, channel, type)`.  If the transport is not
connected it throws `"RTM not connected"` before touching any state.
Otherwise it resolves the call id (possibly generating one), builds the
signal with `from := userId` and `timestamp := now`, and attempts the
peer send; `sendFail = some m` models `client.sendMessageToPeer` (or
client acquisition) throwing with message `m`, in which case
`handleError` records `m` in the error field and the exception is
re-thrown to the caller. -/
def sendCallSignal (to_ channel ty : String) (now : Nat) (rand : String)
    (sendFail : Option String) (s : HookState) : HookState × SendResult :=
  if s.isConnected = false then
    (s, .err "RTM not connected")
  else
    let p := refOrNewCallId now rand s
    let signal : CallSignal :=
      { type := ty
        from_ := p.1.userId
        to_ := to_
        channel := channel
        timestamp := now
        callId := p.2 }
    match sendFail with
    | none => (p.1, .ok signal)
    | some m => ({ p.1 with error := some m }, .err m)

/-- `handleCallSignal`: the inbound-signal switch of the state machine.
It switches on `signal.type` with no default case and performs no
validation of `callId`, `from`, or `to`. -/
def handleCallSignal (signal : CallSignal) (s : HookState) : HookState :=
  if signal.type = "INCOMING_CALL" then
    { s with
      currentCall := some signal
      callState := .RINGING
      ringtonePlaying := true }
  else if signal.type = "CALL_ACCEPTED" then
    { s with
      currentCall := some signal
      callState := .CONNECTED
      showVideoCall := true
      ringtonePlaying := false }
  else if signal.type = "CALL_DECLINED" then
    { s with
      currentCall := none
      callState := .IDLE
      error := some "Call was declined"
      ringtonePlaying := false }
  else if signal.type = "CALL_ENDED" then
    resetCallState s
  else
    s

/-- An inbound transport message after the `JSON.parse` attempt: either a
parsed object (read as a `CallSignal`, whatever its `type` string is) or a
parse failure carrying the `SyntaxError` message. -/
inductive InboundMessage where
  | parsed (signal : CallSignal)
  | unparsable (errMsg : String)
deriving DecidableEq, Repr

/-- `handleMessageFromPeer`: parse the payload and feed it to
`handleCallSignal`; on parse failure, `handleError` stores the parse
error's message in the error field. -/
def handleMessageFromPeer (m : InboundMessage) (s : HookState) : HookState :=
  match m with
  | .parsed signal => handleCallSignal signal s
  | .unparsable e => { s with error := some e }

/-- The `handleChannelMessage` closure installed by `handleJoinChannel`:
like the peer handler, but JSON objects whose `type` is `"heartbeat"` are
filtered out before reaching `handleCallSignal`. -/
def handleChannelMessage (m : InboundMessage) (s : HookState) : HookState :=
  match m with
  | .parsed signal =>
      if signal.type = "heartbeat" then s else handleCallSignal signal s
  | .unparsable e => { s with error := some e }

/-- `const target = currentCall?.from ?? currentTargetUserId` in
`handleEndActiveCall`. -/
def endCallTarget (s : HookState) : String :=
  match s.currentCall with
  | some c => c.from_
  | none => s.currentTargetUserId

/-- `handleInitiateCall(targetUserId)`: rejects an empty target or
channel; otherwise clears the error, records the dialed target, allocates
a fresh call id, sends `INCOMING_CALL`, and only on send success moves to
`CALLING`.  A thrown send error is caught and stored. -/
def handleInitiateCall (targetUserId : String) (now : Nat) (rand : String)
    (sendFail : Option String) (s : HookState) : HookState × List CallSignal :=
  if targetUserId = "" ∨ s.channel = "" then
    ({ s with error := some "Please enter target user ID and channel" }, [])
  else
    let s0 := { s with error := none, currentTargetUserId := targetUserId }
    let s1 := (generateCallId now rand s0).1
    match sendCallSignal targetUserId s.channel "INCOMING_CALL" now rand
        sendFail s1 with
    | (s2, .ok sig) => ({ s2 with callState := .CALLING }, [sig])
    | (s2, .err m) => ({ s2 with error := some m }, [])

/-- `handleAcceptCall`: no-op without a stored `currentCall`; otherwise
clears the error, stops the ringtone, sends `CALL_ACCEPTED` back to
`currentCall.from` on `currentCall.channel`, and on success moves to
`CONNECTED` and shows the video call. -/
def handleAcceptCall (now : Nat) (rand : String) (sendFail : Option String)
    (s : HookState) : HookState × List CallSignal :=
  match s.currentCall with
  | none => (s, [])
  | some c =>
    let s0 := { s with error := none, ringtonePlaying := false }
    match sendCallSignal c.from_ c.channel "CALL_ACCEPTED" now rand
        sendFail s0 with
    | (s1, .ok sig) =>
        ({ s1 with callState := .CONNECTED, showVideoCall := true }, [sig])
    | (s1, .err m) => ({ s1 with error := some m }, [])

/-- `handleDeclineCall`: no-op without a stored `currentCall`; otherwise
clears the error, stops the ringtone, sends `CALL_DECLINED` back, and on
success clears `currentCall` and returns to `IDLE` (the call-id ref is
not cleared). -/
def handleDeclineCall (now : Nat) (rand : String) (sendFail : Option String)
    (s : HookState) : HookState × List CallSignal :=
  match s.currentCall with
  | none => (s, [])
  | some c =>
    let s0 := { s with error := none, ringtonePlaying := false }
    match sendCallSignal c.from_ c.channel "CALL_DECLINED" now rand
        sendFail s0 with
    | (s1, .ok sig) => ({ s1 with currentCall := none, callState := .IDLE }, [sig])
    | (s1, .err m) => ({ s1 with error := some m }, [])

/-- `handleEndActiveCall`: no-op in `IDLE`; otherwise stops the ringtone,
notifies `endCallTarget` with `CALL_ENDED` when that target is non-empty
(only logging a warning when it is empty), and resets the call state.
A thrown send error is caught and stored, skipping the reset. -/
def handleEndActiveCall (now : Nat) (rand : String) (sendFail : Option String)
    (s : HookState) : HookState × List CallSignal :=
  if s.callState = CallState.IDLE then (s, [])
  else
    let s0 := { s with ringtonePlaying := false }
    if endCallTarget s0 = "" then
      (resetCallState s0, [])
    else
      match sendCallSignal (endCallTarget s0) s0.channel "CALL_ENDED" now rand
          sendFail s0 with
      | (s1, .ok sig) => (resetCallState s1, [sig])
      | (s1, .err m) => ({ s1 with error := some m }, [])

/-- One event the hook can process: a local intent, an inbound peer or
channel message, or a connection-state change (`handleConnectionStateChange`
sets `isConnected := (newState = "CONNECTED")`). -/
inductive Event where
  | initiate (target : String) (now : Nat) (rand : String)
      (sendFail : Option String)
  | accept (now : Nat) (rand : String) (sendFail : Option String)
  | decline (now : Nat) (rand : String) (sendFail : Option String)
  | endCall (now : Nat) (rand : String) (sendFail : Option String)
  | peerMsg (m : InboundMessage)
  | channelMsg (m : InboundMessage)
  | connectionChange (newState : String)
deriving DecidableEq, Repr

/-- Apply one event to the hook state (discarding sent signals). -/
def step (s : HookState) (e : Event) : HookState :=
  match e with
  | .initiate t now rand sf => (handleInitiateCall t now rand sf s).1
  | .accept now rand sf => (handleAcceptCall now rand sf s).1
  | .decline now rand sf => (handleDeclineCall now rand sf s).1
  | .endCall now rand sf => (handleEndActiveCall now rand sf s).1
  | .peerMsg m => handleMessageFromPeer m s
  | .channelMsg m => handleChannelMessage m s
  | .connectionChange ns => { s with isConnected := ns = "CONNECTED" }

/-- Run a sequence of events from a starting state. -/
def runEvents (s : HookState) (es : List Event) : HookState :=
  es.foldl step s

/-! ### Presence tracking (command dashboard) -/

/-- One entry of the dashboard's `onlineUsers` list.  Times are `Int`
epoch milliseconds. -/
structure OnlineUser where
  userId : String
  lastSeen : Int
  isOnline : Bool
deriving DecidableEq, Repr

/-- `updateUserPresence(userId, isOnline)`: if a record with this
`userId` exists, rewrite every matching record with `lastSeen := now` and
the given flag; otherwise append a new record. -/
def updateUserPresence (uid : String) (isOnline : Bool) (now : Int)
    (prev : List OnlineUser) : List OnlineUser :=
  match prev.find? (fun u => u.userId == uid) with
  | some _ =>
      prev.map (fun u =>
        if u.userId == uid then
          { u with lastSeen := now, isOnline := isOnline }
        else u)
  | none => prev ++ [{ userId := uid, lastSeen := now, isOnline := isOnline }]

/-- The dashboard's `handleChannelMessage`: heartbeat objects feed
`updateUserPresence(userId, true)`; other parsed objects are ignored on
this page. -/
def recordHeartbeat (uid : String) (now : Int) (prev : List OnlineUser) :
    List OnlineUser :=
  updateUserPresence uid true now prev

/-- `cleanupOfflineUsers`, run on the 5-second sweep:
`isOnline := isOnline && (now - lastSeen < 30000)` for every record. -/
def cleanupOfflineUsers (now : Int) (prev : List OnlineUser) :
    List OnlineUser :=
  prev.map (fun u =>
    { u with isOnline := u.isOnline && decide (now - u.lastSeen < 30000) })

/-! ### Credential refresh (`useTokenRefresh`) -/

/-- `isTokenExpired`: a missing (or zero, hence falsy) `tokenExpiresAt`
counts as expired; otherwise the token is considered expired when fewer
than 300 seconds remain.  `now` is `Math.floor(Date.now() / 1000)`. -/
def isTokenExpired (tokenExpiresAt : Option Int) (now : Int) : Bool :=
  match tokenExpiresAt with
  | none => true
  | some t => if t = 0 then true else decide (t - now < 300)

/-- One firing of the 60-second `checkTokenExpiry` timer: the number of
`generateToken` invocations it performs (1 when `isTokenExpired`,
0 otherwise). -/
def checkTokenExpiry (tokenExpiresAt : Option Int) (now : Int) : Nat :=
  if isTokenExpired tokenExpiresAt now then 1 else 0

/-! ### Two-party composition -/

/-- The nominal handshake between a connected initiator `a` and a
connected callee `b`, both on channel `ch`, with all transport sends
succeeding: `a` initiates to `b`; the signals `a` sent are delivered to
`b`'s peer-message handler; `b` accepts; the signals `b` sent are
delivered back to `a`.  Returns (a's final state, b's final state).
`nA`/`rA` and `nB`/`rB` are the clock and random suffix each side would
use for call-id generation. -/
def connectedRun (a b ch : String) (nA nB : Nat) (rA rB : String) :
    HookState × HookState :=
  let sA0 := { initialState a with isConnected := true, channel := ch }
  let sB0 := { initialState b with isConnected := true, channel := ch }
  let pA := handleInitiateCall b nA rA none sA0
  let sB1 := pA.2.foldl
    (fun st sig => handleMessageFromPeer (.parsed sig) st) sB0
  let pB := handleAcceptCall nB rB none sB1
  let sA2 := pB.2.foldl
    (fun st sig => handleMessageFromPeer (.parsed sig) st) pA.1
  (sA2, pB.1)

/-! ### Helper lemmas -/

theorem mkCallId_ne_empty (n : Nat) (r : String) : mkCallId n r ≠ "" := by
  intro h
  have h2 := congrArg String.data h
  simp [mkCallId] at h2

/-- A concrete `INCOMING_CALL` signal, as `A` would emit when dialing
`B` on channel `"c1"` at time 1 with random suffix `"k"`. -/
def incomingDemo : CallSignal :=
  { type := "INCOMING_CALL"
    from_ := "A"
    to_ := "B"
    channel := "c1"
    timestamp := 1
    callId := "call_1_k" }

/-! ### C1 -/

/-- C1 counterexample: receiving `INCOMING_CALL` in the initial `IDLE`
state moves the machine to `RINGING` while `currentCallIdRef` stays
`none`, so "`currentCallIdRef` is non-null iff `callState ≠ IDLE`" fails
on this reachable state. -/
theorem C1_counterexample :
    (runEvents (initialState "B")
        [Event.peerMsg (InboundMessage.parsed incomingDemo)]).callState
      = CallState.RINGING ∧
    (runEvents (initialState "B")
        [Event.peerMsg (InboundMessage.parsed incomingDemo)]).currentCallIdRef
      = none ∧
    ¬ ((runEvents (initialState "B")
          [Event.peerMsg (InboundMessage.parsed incomingDemo)]).currentCallIdRef
            ≠ none
        ↔ (runEvents (initialState "B")
            [Event.peerMsg (InboundMessage.parsed incomingDemo)]).callState
            ≠ CallState.IDLE) := by
  decide

/-- C1 (amended): along every sequence of local intents and received
signals from the initial state, `callState` is one of the five defined
values; the callId/state biconditional is dropped (it fails in both
directions, see the counterexample). -/
theorem C1_amended_five_states (u : String) (events : List Event) :
    (runEvents (initialState u) events).callState = CallState.IDLE ∨
    (runEvents (initialState u) events).callState = CallState.CALLING ∨
    (runEvents (initialState u) events).callState = CallState.RINGING ∨
    (runEvents (initialState u) events).callState = CallState.CONNECTED ∨
    (runEvents (initialState u) events).callState = CallState.ENDED := by
  cases h : (runEvents (initialState u) events).callState <;> simp

/-! ### C2 -/

/-- C2 counterexample: in the nominal initiate/accept handshake both
sides do reach `CONNECTED`, but they do not hold the same call id — the
callee generates a fresh id when sending `CALL_ACCEPTED` instead of
adopting the initiator's, so the two `currentCallIdRef`s differ (and so
do the ids carried by the two stored `currentCall` signals). -/
theorem C2_counterexample :
    (connectedRun "A" "B" "c1" 1 2 "x" "y").1.callState
        = CallState.CONNECTED ∧
    (connectedRun "A" "B" "c1" 1 2 "x" "y").2.callState
        = CallState.CONNECTED ∧
    (connectedRun "A" "B" "c1" 1 2 "x" "y").1.currentCallIdRef
        ≠ (connectedRun "A" "B" "c1" 1 2 "x" "y").2.currentCallIdRef ∧
    ((connectedRun "A" "B" "c1" 1 2 "x" "y").1.currentCall.map
          CallSignal.callId)
        ≠ ((connectedRun "A" "B" "c1" 1 2 "x" "y").2.currentCall.map
          CallSignal.callId) := by
  decide

/-- C2 (amended): after A initiates to B and B accepts, both state
machines are `CONNECTED`; A's stored call id is the one A allocated at
initiation, while B's stored call id is the fresh one B allocated when
sending `CALL_ACCEPTED`; B's `currentCall` carries A's id and A's
`currentCall` carries B's id. -/
theorem C2_amended (a b ch : String) (nA nB : Nat) (rA rB : String)
    (hb : b ≠ "") (hch : ch ≠ "") :
    (connectedRun a b ch nA nB rA rB).1.callState = CallState.CONNECTED ∧
    (connectedRun a b ch nA nB rA rB).2.callState = CallState.CONNECTED ∧
    (connectedRun a b ch nA nB rA rB).1.currentCallIdRef
        = some (mkCallId nA rA) ∧
    (connectedRun a b ch nA nB rA rB).2.currentCallIdRef
        = some (mkCallId nB rB) ∧
    ((connectedRun a b ch nA nB rA rB).2.currentCall.map CallSignal.callId)
        = some (mkCallId nA rA) ∧
    ((connectedRun a b ch nA nB rA rB).1.currentCall.map CallSignal.callId)
        = some (mkCallId nB rB) := by
  simp [connectedRun, handleInitiateCall, handleAcceptCall, sendCallSignal,
    refOrNewCallId, generateCallId, handleMessageFromPeer, handleCallSignal,
    initialState, hb, hch, mkCallId_ne_empty]

/-- C2 witness: the amended handshake at concrete inputs. -/
theorem C2_amended_witness :
    (connectedRun "A" "B" "c1" 1 2 "x" "y").1.callState
        = CallState.CONNECTED ∧
    (connectedRun "A" "B" "c1" 1 2 "x" "y").2.callState
        = CallState.CONNECTED ∧
    (connectedRun "A" "B" "c1" 1 2 "x" "y").1.currentCallIdRef
        = some (mkCallId 1 "x") ∧
    (connectedRun "A" "B" "c1" 1 2 "x" "y").2.currentCallIdRef
        = some (mkCallId 2 "y") ∧
    ((connectedRun "A" "B" "c1" 1 2 "x" "y").2.currentCall.map
        CallSignal.callId) = some (mkCallId 1 "x") ∧
    ((connectedRun "A" "B" "c1" 1 2 "x" "y").1.currentCall.map
        CallSignal.callId) = some (mkCallId 2 "y") :=
  C2_amended "A" "B" "c1" 1 2 "x" "y" (by decide) (by decide)

/-! ### C3 -/

/-- A signal whose `callId`, `from` and `to` match nothing in the local
pairing used in the C3 counterexample. -/
def bogusAccept : CallSignal :=
  { type := "CALL_ACCEPTED"
    from_ := "stranger"
    to_ := "nobody"
    channel := "other"
    timestamp := 99
    callId := "bogus" }

/-- The state of `A` while dialing `B` with call id `"call_1_x"`. -/
def callingDemo : HookState :=
  { initialState "A" with
    callState := CallState.CALLING
    currentCallIdRef := some "call_1_x"
    currentTargetUserId := "B"
    isConnected := true }

/-- C3 counterexample: while `A` is `CALLING` `B` with call id
`"call_1_x"`, a `CALL_ACCEPTED` carrying call id `"bogus"` from
`"stranger"` to `"nobody"` is nevertheless applied: the state machine
moves to `CONNECTED` and stores the foreign signal, so signals with a
wrong `callId` or a mismatched `from`/`to` are not ignored. -/
theorem C3_counterexample :
    (handleMessageFromPeer (InboundMessage.parsed bogusAccept)
        callingDemo).callState = CallState.CONNECTED ∧
    (handleMessageFromPeer (InboundMessage.parsed bogusAccept)
        callingDemo).currentCall = some bogusAccept := by
  decide

/-- C3 (amended): the inbound-signal handler performs no `callId` or
`from`/`to` validation at all — the transition it takes (the resulting
`callState`, stored call id, error and video flag) depends only on the
signal's `type`, never on its identity fields. -/
theorem C3_amended_no_filtering (s : HookState) (sig1 sig2 : CallSignal)
    (h : sig1.type = sig2.type) :
    (handleCallSignal sig1 s).callState = (handleCallSignal sig2 s).callState ∧
    (handleCallSignal sig1 s).currentCallIdRef
        = (handleCallSignal sig2 s).currentCallIdRef ∧
    (handleCallSignal sig1 s).error = (handleCallSignal sig2 s).error ∧
    (handleCallSignal sig1 s).showVideoCall
        = (handleCallSignal sig2 s).showVideoCall := by
  by_cases h1 : sig2.type = "INCOMING_CALL" <;>
  by_cases h2 : sig2.type = "CALL_ACCEPTED" <;>
  by_cases h3 : sig2.type = "CALL_DECLINED" <;>
  by_cases h4 : sig2.type = "CALL_ENDED" <;>
  simp [handleCallSignal, resetCallState, h, h1, h2, h3, h4]

/-- C3 witness: the amended statement at two concrete `CALL_ACCEPTED`
signals with different identity fields. -/
theorem C3_amended_witness :
    (handleCallSignal bogusAccept (initialState "A")).callState
        = (handleCallSignal
            { bogusAccept with from_ := "B", to_ := "A", callId := "call_1_x" }
            (initialState "A")).callState ∧
    (handleCallSignal bogusAccept (initialState "A")).currentCallIdRef
        = (handleCallSignal
            { bogusAccept with from_ := "B", to_ := "A", callId := "call_1_x" }
            (initialState "A")).currentCallIdRef ∧
    (handleCallSignal bogusAccept (initialState "A")).error
        = (handleCallSignal
            { bogusAccept with from_ := "B", to_ := "A", callId := "call_1_x" }
            (initialState "A")).error ∧
    (handleCallSignal bogusAccept (initialState "A")).showVideoCall
        = (handleCallSignal
            { bogusAccept with from_ := "B", to_ := "A", callId := "call_1_x" }
            (initialState "A")).showVideoCall :=
  C3_amended_no_filtering (initialState "A") bogusAccept
    { bogusAccept with from_ := "B", to_ := "A", callId := "call_1_x" } rfl

/-! ### C4 -/

/-- C4: applying a remote `CALL_ENDED` from any state yields `IDLE` with
no error, and applying a second `CALL_ENDED` to the resulting state is a
no-op (the state is unchanged, hence again `IDLE`, and the error stays
`none`). -/
theorem C4_call_ended_idempotent (s : HookState) (e1 e2 : CallSignal)
    (h1 : e1.type = "CALL_ENDED") (h2 : e2.type = "CALL_ENDED") :
    (handleCallSignal e1 s).callState = CallState.IDLE ∧
    (handleCallSignal e1 s).error = none ∧
    handleCallSignal e2 (handleCallSignal e1 s) = handleCallSignal e1 s := by
  cases s
  simp [handleCallSignal, resetCallState, h1, h2]

/-- The state of `B` while connected to `A`, holding the stored
incoming call. -/
def connectedDemo : HookState :=
  { initialState "B" with
    callState := CallState.CONNECTED
    currentCall := some incomingDemo
    isConnected := true }

/-- A concrete remote `CALL_ENDED` signal for the C4 witness. -/
def endedDemo : CallSignal :=
  { incomingDemo with type := "CALL_ENDED" }

/-- C4 witness: a concrete double `CALL_ENDED` from `CONNECTED`. -/
theorem C4_call_ended_idempotent_witness :
    (handleCallSignal endedDemo connectedDemo).callState = CallState.IDLE ∧
    (handleCallSignal endedDemo connectedDemo).error = none ∧
    handleCallSignal endedDemo (handleCallSignal endedDemo connectedDemo)
      = handleCallSignal endedDemo connectedDemo :=
  C4_call_ended_idempotent connectedDemo endedDemo endedDemo rfl rfl

/-! ### C5 -/

/-- C5: presence tracking.  (1) A heartbeat for an unseen `userId`
creates its record with `lastSeen = now`, `isOnline = true`.  (2) After a
heartbeat for `x`, every record for `x` is online with `lastSeen = now`
(a record that had gone offline flips back online).  (3)/(4) Records of
other identities are untouched by a heartbeat.  (5) The 5-second sweep
rewrites each record pointwise with
`isOnline := isOnline && (now - lastSeen < 30000)`.  (6) Under that
sweep a record ends up offline iff it already was offline or its last
heartbeat is at least 30 seconds old — i.e. an online record flips to
offline exactly when no heartbeat has been observed for ≥ 30 s. -/
theorem C5_presence_tracking (prev : List OnlineUser) (x : String)
    (now : Int) :
    (prev.find? (fun u => u.userId == x) = none →
      recordHeartbeat x now prev
        = prev ++ [{ userId := x, lastSeen := now, isOnline := true }]) ∧
    (∀ u ∈ recordHeartbeat x now prev, u.userId = x →
      u.isOnline = true ∧ u.lastSeen = now) ∧
    (∀ u ∈ recordHeartbeat x now prev, u.userId ≠ x → u ∈ prev) ∧
    (∀ u ∈ prev, u.userId ≠ x → u ∈ recordHeartbeat x now prev) ∧
    (∀ i : Nat, (cleanupOfflineUsers now prev)[i]?
        = (prev[i]?).map (fun u =>
            { u with
              isOnline := u.isOnline && decide (now - u.lastSeen < 30000) })) ∧
    (∀ u : OnlineUser, ∀ v ∈ cleanupOfflineUsers now [u],
      (v.isOnline = false ↔ (u.isOnline = false ∨ 30000 ≤ now - u.lastSeen))) := by
  refine ⟨?_, ?_, ?_, ?_, ?_, ?_⟩
  · intro hnone
    simp [recordHeartbeat, updateUserPresence, hnone]
  · intro u hu hux
    unfold recordHeartbeat updateUserPresence at hu
    cases hfind : prev.find? (fun u => u.userId == x) with
    | none =>
        rw [hfind] at hu
        rcases List.mem_append.mp hu with hmem | hnew
        · have hne := List.find?_eq_none.mp hfind u hmem
          simp [hux] at hne
        · simp at hnew
          simp [hnew]
    | some w =>
        rw [hfind] at hu
        rcases List.mem_map.mp hu with ⟨w0, _, hw0⟩
        by_cases hx : w0.userId = x
        · rw [← hw0]
          simp [hx]
        · rw [← hw0] at hux
          simp [hx] at hux
  · intro u hu hux
    unfold recordHeartbeat updateUserPresence at hu
    cases hfind : prev.find? (fun u => u.userId == x) with
    | none =>
        rw [hfind] at hu
        rcases List.mem_append.mp hu with hmem | hnew
        · exact hmem
        · simp at hnew
          rw [hnew] at hux
          simp at hux
    | some w =>
        rw [hfind] at hu
        rcases List.mem_map.mp hu with ⟨w0, hw0mem, hw0⟩
        by_cases hx : w0.userId = x
        · rw [← hw0] at hux
          simp [hx] at hux
        · rw [← hw0]
          simpa [hx] using hw0mem
  · intro u hu hux
    unfold recordHeartbeat updateUserPresence
    cases hfind : prev.find? (fun u => u.userId == x) with
    | none => exact List.mem_append.mpr (Or.inl hu)
    | some w =>
        apply List.mem_map.mpr
        exact ⟨u, hu, by simp [hux]⟩
  · intro i
    simp [cleanupOfflineUsers, List.getElem?_map]
  · intro u v hv
    simp [cleanupOfflineUsers] at hv
    rw [hv]
    cases hb : u.isOnline <;> simp [hb]

/-- C5 witness: a heartbeat from `"site1"` at t = 9000 creates its
record; sweeps at t = 12000 and t = 42000 keep it online and flip it
offline respectively. -/
theorem C5_presence_tracking_witness :
    recordHeartbeat "site1" 9000 []
      = [{ userId := "site1", lastSeen := 9000, isOnline := true }] ∧
    (∀ v ∈ cleanupOfflineUsers 12000
        [{ userId := "site1", lastSeen := 9000, isOnline := true }],
      (v.isOnline = false ↔ False ∨ (30000 : Int) ≤ 12000 - 9000)) ∧
    (∀ v ∈ cleanupOfflineUsers 42000
        [{ userId := "site1", lastSeen := 9000, isOnline := true }],
      (v.isOnline = false ↔ False ∨ (30000 : Int) ≤ 42000 - 9000)) := by
  refine ⟨(C5_presence_tracking [] "site1" 9000).1 (by decide), ?_, ?_⟩
  · have h := (C5_presence_tracking
          [{ userId := "site1", lastSeen := 9000, isOnline := true }]
          "site1" 12000).2.2.2.2.2
        { userId := "site1", lastSeen := 9000, isOnline := true }
    intro v hv
    simpa using h v hv
  · have h := (C5_presence_tracking
          [{ userId := "site1", lastSeen := 9000, isOnline := true }]
          "site1" 42000).2.2.2.2.2
        { userId := "site1", lastSeen := 9000, isOnline := true }
    intro v hv
    simpa using h v hv

/-! ### C6 -/

/-- C6: one firing of the 60-second credential check reissues the token
(invokes `generateToken` once) iff the stored expiry is missing or
within the 300-second renewal window; in particular `expiresAt = now +
3600` causes no reissuance and `expiresAt = now + 200` causes exactly
one. -/
theorem C6_token_refresh (now : Int) (hnow : 0 < now) :
    checkTokenExpiry (some (now + 3600)) now = 0 ∧
    checkTokenExpiry (some (now + 200)) now = 1 ∧
    (∀ t : Int, 0 ≤ t → (checkTokenExpiry (some t) now = 1 ↔ t - now < 300)) ∧
    checkTokenExpiry none now = 1 := by
  refine ⟨?_, ?_, ?_, ?_⟩
  · have h1 : ¬(now + 3600 = 0) := by omega
    have h2 : ¬(now + 3600 - now < 300) := by omega
    simp [checkTokenExpiry, isTokenExpired, h1, h2]
  · have h1 : ¬(now + 200 = 0) := by omega
    have h2 : now + 200 - now < 300 := by omega
    simp [checkTokenExpiry, isTokenExpired, h1, h2]
  · intro t ht
    by_cases h0 : t = 0
    · subst h0
      simp [checkTokenExpiry, isTokenExpired]
      omega
    · by_cases hlt : t - now < 300 <;>
        simp [checkTokenExpiry, isTokenExpired, h0, hlt]
  · simp [checkTokenExpiry, isTokenExpired]

/-- C6 witness: the refresh check at `now = 1000`. -/
theorem C6_token_refresh_witness :
    checkTokenExpiry (some (1000 + 3600)) 1000 = 0 ∧
    checkTokenExpiry (some (1000 + 200)) 1000 = 1 ∧
    (∀ t : Int, 0 ≤ t →
      (checkTokenExpiry (some t) 1000 = 1 ↔ t - 1000 < 300)) ∧
    checkTokenExpiry none 1000 = 1 :=
  C6_token_refresh 1000 (by decide)

/-! ### C7 -/

/-- C7: with the transport not connected, `sendCallSignal` fails
immediately with the `"RTM not connected"` error, leaving the state
untouched (nothing queued, nothing retried); `handleInitiateCall` in
that condition surfaces the failure in the error field, sends nothing,
and leaves `callState` at `IDLE`. -/
theorem C7_not_connected_fails_fast (s : HookState)
    (toU ch ty target : String) (now : Nat) (rand : String)
    (sf : Option String) (hconn : s.isConnected = false)
    (hidle : s.callState = CallState.IDLE) (htarget : target ≠ "")
    (hch : s.channel ≠ "") :
    sendCallSignal toU ch ty now rand sf s
        = (s, SendResult.err "RTM not connected") ∧
    (handleInitiateCall target now rand sf s).1.callState = CallState.IDLE ∧
    (handleInitiateCall target now rand sf s).1.error
        = some "RTM not connected" ∧
    (handleInitiateCall target now rand sf s).2 = [] := by
  refine ⟨?_, ?_⟩
  · simp [sendCallSignal, hconn]
  · simp [handleInitiateCall, sendCallSignal, generateCallId, hconn,
      htarget, hch, hidle]

/-- A disconnected idle state for the C7 witness. -/
def idleDisconnectedDemo : HookState :=
  initialState "A"

/-- C7 witness: initiating from a concrete disconnected idle state. -/
theorem C7_not_connected_fails_fast_witness :
    sendCallSignal "B" "c1" "INCOMING_CALL" 1 "x" none idleDisconnectedDemo
        = (idleDisconnectedDemo, SendResult.err "RTM not connected") ∧
    (handleInitiateCall "B" 1 "x" none idleDisconnectedDemo).1.callState
        = CallState.IDLE ∧
    (handleInitiateCall "B" 1 "x" none idleDisconnectedDemo).1.error
        = some "RTM not connected" ∧
    (handleInitiateCall "B" 1 "x" none idleDisconnectedDemo).2 = [] :=
  C7_not_connected_fails_fast idleDisconnectedDemo "B" "c1" "INCOMING_CALL"
    "B" 1 "x" none rfl rfl (by decide) (by decide)

/-! ### C8 -/

/-- C8: on a local end-call intent from a non-`IDLE` state, every signal
actually sent is a `CALL_ENDED` addressed to `currentCall.from` when an
inbound signal is stored and to `currentTargetUserId` otherwise; when
that target is empty (no stored call counterpart and no dialed target),
nothing is sent and the handler just performs the local reset to `IDLE`
with the error cleared. -/
theorem C8_end_call_target (s : HookState) (now : Nat) (rand : String)
    (sf : Option String) (hstate : s.callState ≠ CallState.IDLE) :
    (∀ sig ∈ (handleEndActiveCall now rand sf s).2,
        sig.to_
            = (match s.currentCall with
               | some c => c.from_
               | none => s.currentTargetUserId) ∧
        sig.type = "CALL_ENDED") ∧
    ((match s.currentCall with
      | some c => c.from_
      | none => s.currentTargetUserId) = "" →
        handleEndActiveCall now rand sf s
          = (resetCallState { s with ringtonePlaying := false }, []) ∧
        (handleEndActiveCall now rand sf s).1.callState = CallState.IDLE ∧
        (handleEndActiveCall now rand sf s).1.error = none) := by
  have htgt : endCallTarget { s with ringtonePlaying := false }
      = (match s.currentCall with
         | some c => c.from_
         | none => s.currentTargetUserId) := by
    simp [endCallTarget]
  constructor
  · intro sig hsig
    unfold handleEndActiveCall at hsig
    rw [if_neg hstate] at hsig
    by_cases hempty : endCallTarget { s with ringtonePlaying := false } = ""
    · rw [if_pos hempty] at hsig
      simp at hsig
    · rw [if_neg hempty] at hsig
      rw [← htgt]
      unfold sendCallSignal at hsig
      by_cases hconn : s.isConnected = false
      · simp [hconn] at hsig
      · simp [hconn] at hsig
        cases sf with
        | none =>
            simp at hsig
            simp [hsig, endCallTarget]
        | some m =>
            simp at hsig
  · intro hempty
    rw [← htgt] at hempty
    unfold handleEndActiveCall
    rw [if_neg hstate, if_pos hempty]
    simp [resetCallState]

/-- A `RINGING` state with a stored incoming call but no dialed target,
as the callee `B` has after receiving `incomingDemo`. -/
def ringingDemo : HookState :=
  { initialState "B" with
    callState := CallState.RINGING
    currentCall := some incomingDemo
    isConnected := true
    ringtonePlaying := true }

/-- C8 witness: ending the concrete ringing call sends `CALL_ENDED` to
the stored caller `"A"`; and with neither a stored call nor a dialed
target the end-call intent is a pure local reset. -/
theorem C8_end_call_target_witness :
    (∀ sig ∈ (handleEndActiveCall 7 "z" none ringingDemo).2,
        sig.to_ = "A" ∧ sig.type = "CALL_ENDED") ∧
    handleEndActiveCall 7 "z" none
        { initialState "B" with callState := CallState.RINGING }
      = (resetCallState
          { { initialState "B" with callState := CallState.RINGING } with
            ringtonePlaying := false }, []) := by
  constructor
  · exact (C8_end_call_target ringingDemo 7 "z" none (by decide)).1
  · exact ((C8_end_call_target
        { initialState "B" with callState := CallState.RINGING }
        7 "z" none (by decide)).2 (by decide)).1

/-! ### C9 -/

/-- C9 counterexample: a peer message whose payload fails to parse is
not silently dropped — the parse failure is surfaced in the user-visible
error field (the state starts with `error = none` and ends with the
parse error message stored). -/
theorem C9_counterexample :
    (initialState "A").error = none ∧
    (handleMessageFromPeer (InboundMessage.unparsable "Unexpected token")
        (initialState "A")).error = some "Unexpected token" ∧
    (handleChannelMessage (InboundMessage.unparsable "Unexpected token")
        (initialState "A")).error = some "Unexpected token" := by
  decide

/-- C9 (amended): a payload that fails to parse never reaches the call
state machine — `callState`, `currentCall` and the stored call id are
unchanged on both the peer and the channel path — but it is not silent:
the user-visible error field is set to the parse error message.  Parsed
JSON of unknown `type` is dropped without any effect: heartbeats on the
channel path are filtered explicitly, and on the peer path (or any other
unknown `type`) the signal falls through the switch leaving the state
unchanged. -/
theorem C9_amended_malformed_sets_error (s : HookState) (e : String)
    (sig : CallSignal) (hhb : sig.type = "heartbeat") :
    (handleMessageFromPeer (InboundMessage.unparsable e) s).callState
        = s.callState ∧
    (handleMessageFromPeer (InboundMessage.unparsable e) s).currentCall
        = s.currentCall ∧
    (handleMessageFromPeer (InboundMessage.unparsable e) s).currentCallIdRef
        = s.currentCallIdRef ∧
    (handleMessageFromPeer (InboundMessage.unparsable e) s).error = some e ∧
    handleChannelMessage (InboundMessage.unparsable e) s
        = { s with error := some e } ∧
    handleChannelMessage (InboundMessage.parsed sig) s = s ∧
    handleMessageFromPeer (InboundMessage.parsed sig) s = s := by
  simp [handleMessageFromPeer, handleChannelMessage, handleCallSignal, hhb]

/-- A heartbeat object as it would be read off the wire and fed to the
signal handlers (its `type` is `"heartbeat"`; the remaining fields are
the JS `undefined` defaults of the cast). -/
def heartbeatDemo : CallSignal :=
  { type := "heartbeat"
    from_ := ""
    to_ := ""
    channel := ""
    timestamp := 0
    callId := "" }

/-- C9 witness: the amended statement at a concrete state, parse error
and heartbeat payload. -/
theorem C9_amended_witness :
    (handleMessageFromPeer (InboundMessage.unparsable "Unexpected token")
        connectedDemo).callState = connectedDemo.callState ∧
    (handleMessageFromPeer (InboundMessage.unparsable "Unexpected token")
        connectedDemo).currentCall = connectedDemo.currentCall ∧
    (handleMessageFromPeer (InboundMessage.unparsable "Unexpected token")
        connectedDemo).currentCallIdRef = connectedDemo.currentCallIdRef ∧
    (handleMessageFromPeer (InboundMessage.unparsable "Unexpected token")
        connectedDemo).error = some "Unexpected token" ∧
    handleChannelMessage (InboundMessage.unparsable "Unexpected token")
        connectedDemo = { connectedDemo with error := some "Unexpected token" } ∧
    handleChannelMessage (InboundMessage.parsed heartbeatDemo) connectedDemo
        = connectedDemo ∧
    handleMessageFromPeer (InboundMessage.parsed heartbeatDemo) connectedDemo
        = connectedDemo :=
  C9_amended_malformed_sets_error connectedDemo "Unexpected token"
    heartbeatDemo rfl

/-! ### C10 -/

/-- C10 counterexample: `B` is `RINGING` from a received `INCOMING_CALL`
(so `currentCallIdRef` is still `none`); a local end-call intent whose
transport-level send throws leaves `callState` and `currentCall` in
place and sets the error — but the stored call id does **not** remain
unchanged: `sendCallSignal` allocated a fresh id before the send failed,
so the ref went from `none` to a fresh value. -/
theorem C10_counterexample :
    ringingDemo.currentCallIdRef = none ∧
    (handleEndActiveCall 5 "r" (some "send failed") ringingDemo).1.callState
        = ringingDemo.callState ∧
    (handleEndActiveCall 5 "r" (some "send failed") ringingDemo).1.currentCall
        = ringingDemo.currentCall ∧
    (handleEndActiveCall 5 "r" (some "send failed") ringingDemo).1.error
        = some "send failed" ∧
    (handleEndActiveCall 5 "r" (some "send failed")
        ringingDemo).1.currentCallIdRef = some "call_5_r" := by
  decide

/-- C10 (amended): when the `CALL_ENDED` send of a local end-call intent
from a non-`IDLE` state throws, the machine is not reset: `callState`
and `currentCall` are unchanged, nothing is sent, and only the error
field is updated.  The stored call id is also unchanged in the
not-connected case (the throw happens before the id is touched) and
whenever a non-empty id was already stored; but a transport-level send
failure from a state with no stored id leaves behind the freshly
generated id (see the counterexample). -/
theorem C10_amended_failed_end_not_reset (s : HookState) (now : Nat)
    (rand : String) (m : String) (hstate : s.callState ≠ CallState.IDLE)
    (htarget : endCallTarget { s with ringtonePlaying := false } ≠ "") :
    (s.isConnected = false → ∀ sf,
        handleEndActiveCall now rand sf s
          = ({ s with
                ringtonePlaying := false
                error := some "RTM not connected" }, [])) ∧
    (s.isConnected = true →
        (handleEndActiveCall now rand (some m) s).1.callState = s.callState ∧
        (handleEndActiveCall now rand (some m) s).1.currentCall
            = s.currentCall ∧
        (handleEndActiveCall now rand (some m) s).1.error = some m ∧
        (handleEndActiveCall now rand (some m) s).2 = [] ∧
        (∀ cid, s.currentCallIdRef = some cid → cid ≠ "" →
            (handleEndActiveCall now rand (some m) s).1.currentCallIdRef
              = some cid)) := by
  constructor
  · intro hconn sf
    unfold handleEndActiveCall
    rw [if_neg hstate, if_neg htarget]
    simp [sendCallSignal, hconn]
  · intro hconn
    unfold handleEndActiveCall
    rw [if_neg hstate, if_neg htarget]
    simp only [sendCallSignal, hconn]
    simp only [Bool.true_eq_false, if_false]
    cases href : s.currentCallIdRef with
    | none => simp [refOrNewCallId, generateCallId, href]
    | some cid =>
        by_cases hcid : cid = ""
        · simp [refOrNewCallId, generateCallId, href, hcid]
        · simp [refOrNewCallId, generateCallId, href, hcid]

/-- C10 witness: the concrete ringing state for the transport-failure
case, and the same state disconnected for the not-connected case. -/
theorem C10_amended_witness :
    ({ ringingDemo with isConnected := false }.isConnected = false →
      ∀ sf, handleEndActiveCall 5 "r" sf
          { ringingDemo with isConnected := false }
        = ({ { ringingDemo with isConnected := false } with
              ringtonePlaying := false
              error := some "RTM not connected" }, [])) ∧
    (ringingDemo.isConnected = true →
      (handleEndActiveCall 5 "r" (some "send failed")
          ringingDemo).1.callState = ringingDemo.callState ∧
      (handleEndActiveCall 5 "r" (some "send failed")
          ringingDemo).1.currentCall = ringingDemo.currentCall ∧
      (handleEndActiveCall 5 "r" (some "send failed")
          ringingDemo).1.error = some "send failed" ∧
      (handleEndActiveCall 5 "r" (some "send failed") ringingDemo).2 = [] ∧
      (∀ cid, ringingDemo.currentCallIdRef = some cid → cid ≠ "" →
          (handleEndActiveCall 5 "r" (some "send failed")
              ringingDemo).1.currentCallIdRef = some cid)) :=
  ⟨(C10_amended_failed_end_not_reset
      { ringingDemo with isConnected := false } 5 "r" "send failed"
      (by decide) (by decide)).1,
   (C10_amended_failed_end_not_reset ringingDemo 5 "r" "send failed"
      (by decide) (by decide)).2⟩

end Intercom
